import Mathlib

/-!
Verification development for a two-channel translation relay bot
(`bot.py`).  The asynchronous Discord/Gemini collaborators are modelled
by parameters (translation results, network outcomes, fresh message
ids); the module-level configuration dictionaries are parameters of the
embedded functions.  All embedded definitions follow the Python source
line by line; UI-only bookkeeping (the ephemeral 30-second
suggestion-button messages) is not part of the modelled state, since no
claim refers to it.
-/

namespace Bot

/-- Embeds `is_japanese` (bot.py:70-75): true iff some character lies in
U+3040..U+30FF or U+4E00..U+9FAF.  Python compares characters by code
point, embedded here via `Char.toNat`. -/
def is_japanese (text : String) : Bool :=
  text.data.any (fun ch =>
    (decide (0x3040 ≤ ch.toNat) && decide (ch.toNat ≤ 0x30ff)) ||
    (decide (0x4e00 ≤ ch.toNat) && decide (ch.toNat ≤ 0x9faf)))

/-- Acceptance test of `safe_translate_to_english` (bot.py:138):
`result and not is_japanese(result)`. -/
def accept_en (r : String) : Bool := !(r == "") && !is_japanese r

/-- Acceptance test of `safe_translate_to_japanese` (bot.py:152):
`result and is_japanese(result)`. -/
def accept_ja (r : String) : Bool := !(r == "") && is_japanese r

/-- The retry loop shared by `safe_translate_to_english` /
`safe_translate_to_japanese` (bot.py:130-156).  Each attempt's outcome
(the text from `translate_to_*`, or `""` when the call raised) is given
by the `attempts` list, whose length is `max_retries + 1`; `last` is the
running `last_result` (initially `""`).  If an attempt passes the
acceptance test it is returned at once; otherwise after the loop the
last attempt's result is returned when non-empty, else the placeholder. -/
def safe_translate_aux (accept : String → Bool) (ph : String) :
    List String → String → String
  | [], last => if last == "" then ph else last
  | r :: rest, _ => if accept r then r else safe_translate_aux accept ph rest r

/-- `safe_translate_to_english` (bot.py:130-142), parametrised by the
sequence of attempt outcomes. -/
def safe_translate_to_english (attempts : List String) : String :=
  safe_translate_aux accept_en "Translation error." attempts ""

/-- `safe_translate_to_japanese` (bot.py:144-156), parametrised by the
sequence of attempt outcomes. -/
def safe_translate_to_japanese (attempts : List String) : String :=
  safe_translate_aux accept_ja "Translation error (JP)." attempts ""

/-- A message attachment: URL plus optional content type
(`attachment.url`, `attachment.content_type`). -/
structure Attachment where
  url : String
  contentType : Option String
deriving DecidableEq

/-- A Discord message as the bot observes it: channel id, message id,
whether the author is a bot, text content, author display name, author
mention string, optional replied-to message id
(`message.reference.message_id`), and attachments. -/
structure Msg where
  channel : Nat
  id : Nat
  authorBot : Bool
  content : String
  displayName : String
  mention : String
  reference : Option Nat
  attachments : List Attachment
deriving DecidableEq

/-- `forward_map` (bot.py:62): partial map from `(channel_id, message_id)`
to a message object. -/
def FwdMap : Type := Nat × Nat → Option Msg

/-- `conversation_memory` (bot.py:65): per-channel message lines; a
missing key reads as `[]` (Python `dict.get(c, [])` / `setdefault`). -/
def ConvMem : Type := Nat → List String

/-- The bot's mutable module-level state touched by the relay logic. -/
structure BotState where
  forward_map : FwdMap
  conversation_memory : ConvMem

/-- Dictionary store: `d[k] = v`. -/
def mapInsert (fm : FwdMap) (k : Nat × Nat) (v : Msg) : FwdMap :=
  fun q => if q = k then some v else fm q

/-- Dictionary removal: `d.pop(k)` (key known present or absent). -/
def mapErase (fm : FwdMap) (k : Nat × Nat) : FwdMap :=
  fun q => if q = k then none else fm q

/-- Lookup in `CHANNEL_JA_EN_PAIRS`, modelled as an association list in
insertion order (Python dict literals have unique keys; `find?` returns
the unique binding). -/
def pairLookup (pairs : List (Nat × Nat)) (k : Nat) : Option Nat :=
  (pairs.find? (fun p => p.1 == k)).map (fun p => p.2)

/-- Lookup in `CHANNEL_EN_JA = {v: k for k, v in CHANNEL_JA_EN_PAIRS.items()}`
(bot.py:59).  In the comprehension a later pair with the same value
overwrites an earlier one, hence the search from the rear. -/
def enJaLookup (pairs : List (Nat × Nat)) (k : Nat) : Option Nat :=
  (pairs.reverse.find? (fun p => p.2 == k)).map (fun p => p.1)

/-- `channel_id in CHANNEL_JA_EN_PAIRS or channel_id in CHANNEL_EN_JA`. -/
def isMonitored (pairs : List (Nat × Nat)) (c : Nat) : Bool :=
  (pairLookup pairs c).isSome || (enJaLookup pairs c).isSome

/-- The buffer update `lst.append(line); lst = lst[-10:]`
(bot.py:365-366, 474-475, 494-495): append, then keep the last 10. -/
def bufferAppend (buf : List String) (line : String) : List String :=
  let l := buf ++ [line]
  l.drop (l.length - 10)

/-- `conversation_memory` update on channel `c`. -/
def memAppend (mem : ConvMem) (c : Nat) (line : String) : ConvMem :=
  fun q => if q = c then bufferAppend (mem c) line else mem q

/-- The context line `f"{message.author.display_name}: {message.content}"`. -/
def fmtLine (m : Msg) : String := m.displayName ++ ": " ++ m.content

/-- `build_forward_content` (bot.py:348-358). -/
def build_forward_content (m : Msg) (translated : String) : String :=
  let header := "__**" ++ m.mention ++ "**__\n"
  let content := if translated == "" then header else header ++ translated
  let image_links := (m.attachments.filter (fun a =>
      match a.contentType with
      | some t => t.startsWith "image"
      | none => false)).map (fun a => a.url)
  if image_links.isEmpty then content
  else content ++ "\n" ++ String.intercalate "\n" image_links

/-- Record of one outbound send performed by `forward_message`: target
channel, the branch's `translated` value, the content passed to
`target_channel.send`, the reply reference used (if any), and the
returned forwarded-message handle. -/
structure SendRec where
  target : Nat
  translated : String
  sentContent : String
  ref : Option Msg
  forwarded : Msg
deriving DecidableEq

/-- The routing decision of `forward_message` (bot.py:368-414): which
target channel is used and what `translated` is set to, as a function
of the configuration, the message, and the translation results
`tEN` / `tJA` that the awaited `safe_translate_to_english` /
`safe_translate_to_japanese` calls produce (the surrounding try/except
folds into these values).  `none` means the final `else: return None`. -/
def routeOf (pairs : List (Nat × Nat)) (tEN tJA : String) (msg : Msg) :
    Option (Nat × String) :=
  let src := msg.channel
  if pairLookup pairs src = some src then
    -- self-mapping branch (bot.py:369-384)
    some (src,
      if msg.content == "" then ""
      else if is_japanese msg.content then tEN else tJA)
  else match pairLookup pairs src with
    | some t =>
      -- Japanese -> English forward (bot.py:386-398)
      some (t,
        if msg.content == "" then ""
        else if is_japanese msg.content then tEN else msg.content)
    | none => match enJaLookup pairs src with
      | some t =>
        -- English -> Japanese forward (bot.py:400-412)
        some (t,
          if msg.content == "" then ""
          else if !is_japanese msg.content then tJA else msg.content)
      | none => none

/-- `forward_message` (bot.py:360-457).  `freshId` is the id Discord
assigns to the sent message.  Returns the updated state and the send
record (`none` when the channel is not routed, i.e. the Python function
returns `None`).  The send returns a bot-authored message in the target
channel whose observable fields are its channel, id, author flag and
content. -/
def forward_message (pairs : List (Nat × Nat)) (tEN tJA : String)
    (st : BotState) (msg : Msg) (freshId : Nat) :
    BotState × Option SendRec :=
  let src := msg.channel
  -- bot.py:364-366, memory update before routing
  let mem1 := memAppend st.conversation_memory src (fmtLine msg)
  match routeOf pairs tEN tJA msg with
  | none => ({ forward_map := st.forward_map, conversation_memory := mem1 }, none)
  | some (target, translated) =>
    -- reply-reference lookup (bot.py:416-423)
    let ref0 : Option Msg :=
      match msg.reference with
      | some pid => st.forward_map (src, pid)
      | none => none
    let ref : Option Msg :=
      match ref0 with
      | some r => if r.channel ≠ target then none else some r
      | none => none
    let content_to_send := build_forward_content msg translated
    let forwarded : Msg :=
      { channel := target, id := freshId, authorBot := true,
        content := content_to_send, displayName := "", mention := "",
        reference := ref.map Msg.id, attachments := [] }
    -- identity-map insertion (bot.py:434-435)
    let fm1 := mapInsert st.forward_map (src, msg.id) forwarded
    let fm2 := mapInsert fm1 (target, forwarded.id) msg
    ({ forward_map := fm2, conversation_memory := mem1 },
     some { target := target, translated := translated,
            sentContent := content_to_send, ref := ref,
            forwarded := forwarded })

/-- `on_message` (bot.py:459-483).  The suggestion-message cleanup
(bot.py:461-469) touches only UI bookkeeping and is not modelled. -/
def on_message (pairs : List (Nat × Nat)) (tEN tJA : String)
    (st : BotState) (msg : Msg) (freshId : Nat) :
    BotState × Option SendRec :=
  -- bot.py:471-475: self identity entry and memory line, before the bot check
  let st1 : BotState :=
    if isMonitored pairs msg.channel then
      { forward_map := mapInsert st.forward_map (msg.channel, msg.id) msg,
        conversation_memory :=
          memAppend st.conversation_memory msg.channel (fmtLine msg) }
    else st
  if msg.authorBot then (st1, none)
  else if isMonitored pairs msg.channel then
    forward_message pairs tEN tJA st1 msg freshId
  else (st1, none)

/-- The `translated` computation of `on_message_edit` (bot.py:502-541),
mirroring the routing branches of `forward_message`. -/
def editTranslated (pairs : List (Nat × Nat)) (tEN tJA : String)
    (after : Msg) : String :=
  let c := after.channel
  if pairLookup pairs c = some c then
    if after.content == "" then ""
    else if is_japanese after.content then tEN else tJA
  else if (pairLookup pairs c).isSome then
    if after.content == "" then ""
    else if is_japanese after.content then tEN else after.content
  else
    if after.content == "" then ""
    else if !is_japanese after.content then tJA else after.content

/-- `on_message_edit` (bot.py:485-547).  Returns the updated state and,
when an outbound edit is issued, the edited counterpart handle together
with the new content passed to `forwarded_msg.edit`. -/
def on_message_edit (pairs : List (Nat × Nat)) (tEN tJA : String)
    (st : BotState) (after : Msg) : BotState × Option (Msg × String) :=
  if after.authorBot then (st, none)
  else if !isMonitored pairs after.channel then (st, none)
  else
    -- bot.py:493-495: memory update happens before the identity lookup
    let st1 : BotState :=
      { forward_map := st.forward_map,
        conversation_memory :=
          memAppend st.conversation_memory after.channel (fmtLine after) }
    match st1.forward_map (after.channel, after.id) with
    | none => (st1, none)
    | some fwd =>
      (st1, some (fwd, build_forward_content after
        (editTranslated pairs tEN tJA after)))

/-- `on_message_delete` (bot.py:549-566).  Returns the updated state
and the counterpart handle the bot deletes, if any. -/
def on_message_delete (pairs : List (Nat × Nat)) (st : BotState)
    (msg : Msg) : BotState × Option Msg :=
  if msg.authorBot then (st, none)
  else if !isMonitored pairs msg.channel then (st, none)
  else match st.forward_map (msg.channel, msg.id) with
    | none => (st, none)
    | some fwd =>
      let fm1 := mapErase st.forward_map (msg.channel, msg.id)
      let fm2 :=
        if (fm1 (fwd.channel, fwd.id)).isSome then
          mapErase fm1 (fwd.channel, fwd.id)
        else fm1
      ({ forward_map := fm2, conversation_memory := st.conversation_memory },
       some fwd)

/-- Startup seeding of one channel's buffer (bot.py:337-342):
`channel.history(limit=10)` yields the channel's messages newest first
(`history` here is the full channel, newest first); non-bot messages
among the fetched ones are collected and the list reversed. -/
def seed_history (history : List Msg) : List String :=
  ((((history.take 10).filter (fun m => !m.authorBot)).map fmtLine)).reverse

/-- Modelled from the spec: "Seeded at startup by replaying the most
recent 10 human (non-bot) messages of each monitored channel, oldest
first" — filter to humans first, then take the 10 most recent. -/
def seed_history_spec (history : List Msg) : List String :=
  ((((history.filter (fun m => !m.authorBot)).take 10)).map fmtLine).reverse

/-- Outcome of the HTTP call inside `query_lm_studio` (bot.py:160-179). -/
inductive LMOutcome where
  | ok (content : String)
  | httpError (status : Nat)
  | exn (msg : String)
deriving DecidableEq

/-- `query_lm_studio` (bot.py:160-179) as a function of the network
outcome: HTTP 200 returns the stripped completion, a non-200 status
returns `"Error: {status}"`, an exception (timeouts included) returns
`"Error: {e}"`. -/
def query_lm_studio (o : LMOutcome) : String :=
  match o with
  | .ok content => content
  | .httpError status => "Error: " ++ toString status
  | .exn e => "Error: " ++ e

/-- `LM_MODELS` (bot.py:33). -/
def LM_MODELS : List String := ["qwen/qwen3-vl-4b", "google/gemma-3-4b"]

/-- Keys of a Python dict after inserting the given keys in order:
first-occurrence order, duplicates collapsed. -/
def dictKeys : List String → List String
  | [] => []
  | x :: xs => x :: (dictKeys xs).filter (fun y => y ≠ x)

/-- The panel decision of `run_comparison_task` (bot.py:255-281),
generalised over the model list.  `results` gives each model's network
outcome; `swapAB` stands for the `random.shuffle` of the two keys.
Returns `none` exactly when `len(models) < 2` after building the
`translations` dict (the "silently dropped" path), otherwise the panel
data `(model_a, model_b, text_a, text_b)`. -/
def run_comparison_general (models : List String) (swapAB : Bool)
    (results : String → LMOutcome) :
    Option (String × String × String × String) :=
  let keys := dictKeys models
  if keys.length < 2 then none
  else
    let ordered := if swapAB then keys.reverse else keys
    match ordered with
    | a :: b :: _ =>
        some (a, b, query_lm_studio (results a), query_lm_studio (results b))
    | _ => none

/-- `run_comparison_task` with the configured `LM_MODELS`. -/
def run_comparison_task (swapAB : Bool) (results : String → LMOutcome) :
    Option (String × String × String × String) :=
  run_comparison_general LM_MODELS swapAB results

/-! Concrete configurations, messages and states used to evaluate the
embedded handlers at specific inputs. -/

/-- The state at process start: both dictionaries empty. -/
def st_empty : BotState :=
  { forward_map := fun _ => none, conversation_memory := fun _ => [] }

/-- A pairing configuration: channel 1 (Japanese side) paired with
channel 2 (English side); same shape as `CHANNEL_JA_EN_PAIRS`. -/
def pairs0 : List (Nat × Nat) := [(1, 2)]

/-- A self-pairing configuration: channel 5 maps to itself. -/
def pairsSelf : List (Nat × Nat) := [(5, 5)]

/-- A human-authored Japanese message in channel 1. -/
def msgJA : Msg :=
  { channel := 1, id := 100, authorBot := false, content := "こんにちは",
    displayName := "alice", mention := "<@11>", reference := none,
    attachments := [] }

/-- The state after `on_message` has relayed `msgJA` under `pairs0`
(translation result "hello", fresh message id 200). -/
def relayedSt : BotState := (on_message pairs0 "hello" "x" st_empty msgJA 200).1

/-- The forwarded-message handle produced by that relay: the bot's copy
in channel 2 with id 200. -/
def fwd0 : Msg :=
  { channel := 2, id := 200, authorBot := true,
    content := build_forward_content msgJA "hello", displayName := "",
    mention := "", reference := none, attachments := [] }

/-- A human-authored message in channel 1 that was never relayed. -/
def editMsg : Msg :=
  { channel := 1, id := 50, authorBot := false, content := "hi",
    displayName := "alice", mention := "<@11>", reference := none,
    attachments := [] }

/-- A bot-authored message in self-paired channel 5. -/
def m0 : Msg :=
  { channel := 5, id := 7, authorBot := true, content := "yo",
    displayName := "bot", mention := "<@9>", reference := none,
    attachments := [] }

/-- A state in which `m0` has a self-referential identity entry, as
`on_message` leaves behind for a bot message. -/
def stSelf : BotState :=
  { forward_map := mapInsert (fun _ => none) (5, 7) m0,
    conversation_memory := fun _ => [] }

/-- A human reply (in self-paired channel 5) to the bot message `m0`. -/
def msgReply : Msg :=
  { channel := 5, id := 8, authorBot := false, content := "こんにちは",
    displayName := "alice", mention := "<@11>", reference := some 7,
    attachments := [] }

/-- Every model query fails with a timeout. -/
def failAll : String → LMOutcome := fun _ => .exn "TimeoutError"

/-- A human message with id `i` in channel 1. -/
def humanMsg (i : Nat) : Msg :=
  { channel := 1, id := i, authorBot := false, content := "m",
    displayName := "u", mention := "<@1>", reference := none,
    attachments := [] }

/-- A bot message, the newest in channel 1. -/
def botMsgTop : Msg :=
  { channel := 1, id := 11, authorBot := true, content := "relay",
    displayName := "bot", mention := "<@99>", reference := none,
    attachments := [] }

/-- A channel history (newest first): one bot message on top of ten
human messages. -/
def exHistory : List Msg := botMsgTop :: (List.range 10).map humanMsg

/-- A channel history of three human messages only. -/
def exAllHuman : List Msg := (List.range 3).map humanMsg

end Bot

namespace Bot

theorem safe_translate_aux_ne_empty (accept : String → Bool) (ph : String)
    (hph : ph ≠ "") (hacc : ∀ r, accept r = true → r ≠ "") :
    ∀ (atts : List String) (last : String),
      safe_translate_aux accept ph atts last ≠ "" := by
  intro atts
  induction atts with
  | nil =>
      intro last
      simp only [safe_translate_aux]
      split
      · exact hph
      · next h => exact fun he => h (by simp [he])
  | cons r rest ih =>
      intro last
      simp only [safe_translate_aux]
      split
      · next h => exact hacc r h
      · exact ih r

theorem safe_translate_aux_mem (accept : String → Bool) (ph : String) :
    ∀ (atts : List String) (last : String),
      safe_translate_aux accept ph atts last = last ∨
      safe_translate_aux accept ph atts last ∈ atts ∨
      safe_translate_aux accept ph atts last = ph := by
  intro atts
  induction atts with
  | nil =>
      intro last
      simp only [safe_translate_aux]
      split
      · exact Or.inr (Or.inr rfl)
      · exact Or.inl rfl
  | cons r rest ih =>
      intro last
      simp only [safe_translate_aux]
      split
      · exact Or.inr (Or.inl (List.mem_cons_self r rest))
      · rcases ih r with h | h | h
        · exact Or.inr (Or.inl (by rw [h]; exact List.mem_cons_self r rest))
        · exact Or.inr (Or.inl (List.mem_cons_of_mem r h))
        · exact Or.inr (Or.inr h)

theorem safe_translate_aux_all_fail (accept : String → Bool) (ph : String) :
    ∀ (atts : List String) (r last : String),
      (∀ a ∈ atts ++ [r], accept a = false) →
      safe_translate_aux accept ph (atts ++ [r]) last =
        if r == "" then ph else r := by
  intro atts
  induction atts with
  | nil =>
      intro r last hall
      have hr : accept r = false := hall r (by simp)
      simp [safe_translate_aux, hr]
  | cons a atts ih =>
      intro r last hall
      have ha : accept a = false := hall a (by simp)
      have hall' : ∀ b ∈ atts ++ [r], accept b = false := by
        intro b hb
        exact hall b (List.mem_cons_of_mem a (by simpa using hb))
      simp only [List.cons_append, safe_translate_aux, ha, Bool.false_eq_true,
        if_false]
      exact ih r a hall'

end Bot

namespace Bot

/-- C9: `is_japanese` is a pure function of character membership in
U+3040–U+30FF and U+4E00–U+9FAF: it returns true exactly when the text
contains at least one character in those ranges. -/
theorem claim_C9_detector (s : String) :
    is_japanese s = true ↔
      ∃ ch ∈ s.data,
        (0x3040 ≤ ch.toNat ∧ ch.toNat ≤ 0x30ff) ∨
        (0x4e00 ≤ ch.toNat ∧ ch.toNat ≤ 0x9faf) := by
  simp [is_japanese, List.any_eq_true]

theorem accept_en_ne_empty : ∀ r, accept_en r = true → r ≠ "" := by
  intro r h
  simp only [accept_en, Bool.and_eq_true, Bool.not_eq_true', beq_eq_false_iff_ne] at h
  exact h.1

theorem accept_ja_ne_empty : ∀ r, accept_ja r = true → r ≠ "" := by
  intro r h
  simp only [accept_ja, Bool.and_eq_true, Bool.not_eq_true', beq_eq_false_iff_ne] at h
  exact h.1

/-- C3: neither `safe_translate_to_english` nor
`safe_translate_to_japanese` ever returns the empty string: the result
is a (necessarily non-empty) attempt output — validated or not — or the
fixed non-empty placeholder of that direction. -/
theorem claim_C3_never_empty (attempts : List String) :
    (safe_translate_to_english attempts ≠ "" ∧
      (safe_translate_to_english attempts ∈ attempts ∨
        safe_translate_to_english attempts = "Translation error.")) ∧
    (safe_translate_to_japanese attempts ≠ "" ∧
      (safe_translate_to_japanese attempts ∈ attempts ∨
        safe_translate_to_japanese attempts = "Translation error (JP).")) := by
  have hen := safe_translate_aux_ne_empty accept_en "Translation error."
    (by decide) accept_en_ne_empty attempts ""
  have hja := safe_translate_aux_ne_empty accept_ja "Translation error (JP)."
    (by decide) accept_ja_ne_empty attempts ""
  have men := safe_translate_aux_mem accept_en "Translation error." attempts ""
  have mja := safe_translate_aux_mem accept_ja "Translation error (JP)." attempts ""
  refine ⟨⟨hen, ?_⟩, ⟨hja, ?_⟩⟩
  · rcases men with h | h | h
    · exact absurd h hen
    · exact Or.inl h
    · exact Or.inr h
  · rcases mja with h | h | h
    · exact absurd h hja
    · exact Or.inl h
    · exact Or.inr h

/-- C1, counterexample: the attempts `["hello", "", ""]` (first attempt
non-empty but failing Japanese validation, the two retries empty) all
fail validation; the claim then requires the last non-empty result
`"hello"` — or, had no attempt produced text, the placeholder
`"翻訳エラー。"` — but the code returns `"Translation error (JP)."`,
which is neither. -/
theorem claim_C1_counterexample :
    accept_ja "hello" = false ∧ accept_ja "" = false ∧
    safe_translate_to_japanese ["hello", "", ""] = "Translation error (JP)." ∧
    "Translation error (JP)." ≠ "hello" ∧
    "Translation error (JP)." ≠ "翻訳エラー。" := by
  refine ⟨by decide, by decide, by decide, by decide, by decide⟩

/-- C1, amended: when all `max_retries + 1` attempts fail validation,
`safe_translate_to_english` / `safe_translate_to_japanese` return the
result of the final attempt if it is non-empty, and otherwise the fixed
placeholder `"Translation error."` / `"Translation error (JP)."`. -/
theorem claim_C1_amended (atts : List String) (r : String) :
    ((∀ a ∈ atts ++ [r], accept_en a = false) →
      safe_translate_to_english (atts ++ [r]) =
        if r = "" then "Translation error." else r) ∧
    ((∀ a ∈ atts ++ [r], accept_ja a = false) →
      safe_translate_to_japanese (atts ++ [r]) =
        if r = "" then "Translation error (JP)." else r) := by
  constructor
  · intro hall
    have h := safe_translate_aux_all_fail accept_en "Translation error."
      atts r "" hall
    rw [safe_translate_to_english, h]
    by_cases hr : r = "" <;> simp [hr]
  · intro hall
    have h := safe_translate_aux_all_fail accept_ja "Translation error (JP)."
      atts r "" hall
    rw [safe_translate_to_japanese, h]
    by_cases hr : r = "" <;> simp [hr]

/-- Witness for the amended C1: attempts `["hello", ""]` all fail
Japanese validation and the last attempt is empty, so the placeholder
comes back. -/
theorem claim_C1_amended_witness :
    safe_translate_to_japanese (["hello"] ++ [""]) =
      if ("" : String) = "" then "Translation error (JP)." else "" := by
  exact (claim_C1_amended ["hello"] "").2 (by decide)

end Bot

namespace Bot

theorem bufferAppend_length_le (buf : List String) (x : String) :
    (bufferAppend buf x).length ≤ 10 := by
  simp only [bufferAppend, List.length_drop, List.length_append,
    List.length_cons, List.length_nil]
  omega

/-- C5: the conversation buffer never exceeds 10 entries under any
sequence of appends (from any start of at most 10 entries, as produced
by seeding), an append below the cap keeps every entry, and an append at
the cap evicts exactly the oldest entry (FIFO). -/
theorem claim_C5_buffer :
    (∀ (init seq : List String), init.length ≤ 10 →
      (seq.foldl bufferAppend init).length ≤ 10) ∧
    (∀ (buf : List String) (x : String), buf.length < 10 →
      bufferAppend buf x = buf ++ [x]) ∧
    (∀ (buf : List String) (x : String), buf.length = 10 →
      bufferAppend buf x = buf.drop 1 ++ [x]) := by
  refine ⟨?_, ?_, ?_⟩
  · intro init seq
    induction seq generalizing init with
    | nil => intro h; simpa using h
    | cons y ys ih =>
        intro _
        exact ih (bufferAppend init y) (bufferAppend_length_le init y)
  · intro buf x h
    have hz : (buf ++ [x]).length - 10 = 0 := by
      simp only [List.length_append, List.length_cons, List.length_nil]
      omega
    simp only [bufferAppend]
    rw [hz, List.drop_zero]
  · intro buf x h
    have hone : (buf ++ [x]).length - 10 = 1 := by
      simp only [List.length_append, List.length_cons, List.length_nil]
      omega
    simp only [bufferAppend, hone, List.drop_append_eq_append_drop, h]
    rfl

/-- Witness for C5: appending two lines to an empty buffer stays within
the cap, and appending to a full 10-entry buffer drops entry "0". -/
theorem claim_C5_buffer_witness :
    ((["l1", "l2"].foldl bufferAppend []).length ≤ 10) ∧
    bufferAppend ["0", "1", "2", "3", "4", "5", "6", "7", "8", "9"] "new" =
      ["0", "1", "2", "3", "4", "5", "6", "7", "8", "9"].drop 1 ++ ["new"] := by
  exact ⟨claim_C5_buffer.1 [] ["l1", "l2"] (by decide),
    claim_C5_buffer.2.2 ["0", "1", "2", "3", "4", "5", "6", "7", "8", "9"]
      "new" (by decide)⟩

end Bot

namespace Bot

theorem forward_message_of_route (pairs : List (Nat × Nat))
    (tEN tJA : String) (st : BotState) (msg : Msg) (freshId : Nat)
    (t : Nat) (tr : String)
    (h : routeOf pairs tEN tJA msg = some (t, tr)) :
    ∃ r, (forward_message pairs tEN tJA st msg freshId).2 = some r ∧
      r.target = t ∧ r.translated = tr := by
  simp only [forward_message, h]
  exact ⟨_, rfl, rfl, rfl⟩

/-- C4: the relay routing decision follows the spec's priority order —
a self-mapped source channel translates in the opposite of the detected
language back into the same channel; otherwise a forward-direction
(Japanese-side) key translates Japanese-script text to English and
passes other text through, to the paired channel; otherwise a
reverse-direction (English-side) key translates non-Japanese text to
Japanese and passes Japanese text through, to the paired channel;
otherwise the message is not relayed. -/
theorem claim_C4_routing (pairs : List (Nat × Nat)) (tEN tJA : String)
    (st : BotState) (msg : Msg) (freshId : Nat) (hc : msg.content ≠ "") :
    (pairLookup pairs msg.channel = some msg.channel →
      ∃ r, (forward_message pairs tEN tJA st msg freshId).2 = some r ∧
        r.target = msg.channel ∧
        r.translated = (if is_japanese msg.content then tEN else tJA)) ∧
    (∀ t, pairLookup pairs msg.channel = some t → t ≠ msg.channel →
      ∃ r, (forward_message pairs tEN tJA st msg freshId).2 = some r ∧
        r.target = t ∧
        r.translated = (if is_japanese msg.content then tEN else msg.content)) ∧
    (∀ t, pairLookup pairs msg.channel = none →
        enJaLookup pairs msg.channel = some t →
      ∃ r, (forward_message pairs tEN tJA st msg freshId).2 = some r ∧
        r.target = t ∧
        r.translated = (if !is_japanese msg.content then tJA else msg.content)) ∧
    (pairLookup pairs msg.channel = none →
      enJaLookup pairs msg.channel = none →
      (forward_message pairs tEN tJA st msg freshId).2 = none) := by
  have hce : (msg.content == "") = false := beq_eq_false_iff_ne.mpr hc
  refine ⟨?_, ?_, ?_, ?_⟩
  · intro h
    refine forward_message_of_route pairs tEN tJA st msg freshId _ _ ?_
    simp [routeOf, h, hce]
  · intro t ht hne
    refine forward_message_of_route pairs tEN tJA st msg freshId _ _ ?_
    simp [routeOf, ht, hce, hne]
  · intro t h1 h2
    refine forward_message_of_route pairs tEN tJA st msg freshId _ _ ?_
    simp [routeOf, h1, h2, hce]
  · intro h1 h2
    simp [forward_message, routeOf, h1, h2]

/-- Witness for C4: a Japanese message in forward-paired channel 1 is
routed to channel 2 carrying the English translation result. -/
theorem claim_C4_routing_witness :
    ∃ r, (forward_message pairs0 "hello" "x" st_empty msgJA 200).2 = some r ∧
      r.target = 2 ∧
      r.translated = (if is_japanese msgJA.content then "hello" else msgJA.content) := by
  exact (claim_C4_routing pairs0 "hello" "x" st_empty msgJA 200
    (by decide)).2.1 2 (by decide) (by decide)

end Bot

namespace Bot

/-- C2, counterexample: after the relay of `msgJA` both identity entries
exist, but the delete event for the bot-authored forwarded copy `fwd0`
is a no-op (bot.py:551 returns early for bot authors), so neither entry
is removed — contradicting "whenever either side of such a pair is
deleted, both entries are removed". -/
theorem claim_C2_counterexample :
    relayedSt.forward_map (1, 100) = some fwd0 ∧
    relayedSt.forward_map (2, 200) = some msgJA ∧
    on_message_delete pairs0 relayedSt fwd0 = (relayedSt, none) ∧
    (on_message_delete pairs0 relayedSt fwd0).1.forward_map (1, 100) = some fwd0 := by
  refine ⟨by decide, by decide, rfl, by decide⟩

/-- C2, amended: after every successful relay both the forward entry
`(source, srcMsg) ↦ forwarded` and the reverse entry
`(target, fwdMsg) ↦ source` exist; when the *source* (human-authored)
side of such a pair is deleted, both entries are removed; a delete of
the bot-authored forwarded side, however, is ignored by the handler and
leaves the map unchanged. -/
theorem claim_C2_amended :
    (∀ (pairs : List (Nat × Nat)) (tEN tJA : String) (st : BotState)
        (msg : Msg) (freshId : Nat) (r : SendRec),
      (forward_message pairs tEN tJA st msg freshId).2 = some r →
      (msg.channel, msg.id) ≠ (r.target, freshId) →
      (forward_message pairs tEN tJA st msg freshId).1.forward_map
          (msg.channel, msg.id) = some r.forwarded ∧
      (forward_message pairs tEN tJA st msg freshId).1.forward_map
          (r.target, freshId) = some msg ∧
      r.forwarded.channel = r.target ∧ r.forwarded.id = freshId) ∧
    (∀ (pairs : List (Nat × Nat)) (st : BotState) (msg fwd : Msg),
      msg.authorBot = false → isMonitored pairs msg.channel = true →
      st.forward_map (msg.channel, msg.id) = some fwd →
      (on_message_delete pairs st msg).1.forward_map (msg.channel, msg.id) = none ∧
      (on_message_delete pairs st msg).1.forward_map (fwd.channel, fwd.id) = none) ∧
    (∀ (pairs : List (Nat × Nat)) (st : BotState) (msg : Msg),
      msg.authorBot = true → on_message_delete pairs st msg = (st, none)) := by
  refine ⟨?_, ?_, ?_⟩
  · intro pairs tEN tJA st msg freshId r hout hne
    cases hroute : routeOf pairs tEN tJA msg with
    | none => simp [forward_message, hroute] at hout
    | some p =>
      obtain ⟨t, tr⟩ := p
      simp only [forward_message, hroute] at hout ⊢
      have hr := Option.some.inj hout
      subst hr
      refine ⟨?_, ?_, rfl, rfl⟩
      · simp only [mapInsert]
        rw [if_neg hne]
        simp
      · simp only [mapInsert]
        simp
  · intro pairs st msg fwd hbot hmon hlook
    have hmon' : (!isMonitored pairs msg.channel) = false := by simp [hmon]
    simp only [on_message_delete, hbot, hmon', Bool.false_eq_true, if_false,
      hlook]
    by_cases hkey : ((fwd.channel, fwd.id) : Nat × Nat) = (msg.channel, msg.id)
    · have h1 : mapErase st.forward_map (msg.channel, msg.id)
          (fwd.channel, fwd.id) = none := by
        simp [mapErase, hkey]
      rw [h1]
      simp only [Option.isSome_none, Bool.false_eq_true, if_false]
      exact ⟨by simp [mapErase], by simp [mapErase, hkey]⟩
    · have h1 : mapErase st.forward_map (msg.channel, msg.id)
          (fwd.channel, fwd.id) = st.forward_map (fwd.channel, fwd.id) := by
        simp [mapErase, hkey]
      rw [h1]
      rcases hcase : st.forward_map (fwd.channel, fwd.id) with _ | v
      · simp only [Option.isSome_none, Bool.false_eq_true, if_false]
        exact ⟨by simp [mapErase], h1.trans hcase⟩
      · simp only [Option.isSome_some]
        rw [if_pos True.intro]
        exact ⟨by simp [mapErase], by simp [mapErase]⟩
  · intro pairs st msg h
    simp [on_message_delete, h]

/-- Witness for the amended C2: deleting the source message `msgJA`
from the relayed state removes both identity entries. -/
theorem claim_C2_amended_witness :
    (on_message_delete pairs0 relayedSt msgJA).1.forward_map (1, 100) = none ∧
    (on_message_delete pairs0 relayedSt msgJA).1.forward_map
      (fwd0.channel, fwd0.id) = none := by
  exact claim_C2_amended.2.1 pairs0 relayedSt msgJA fwd0 (by decide)
    (by decide) (by decide)

end Bot

namespace Bot

/-- C6, counterexample: handling an edit event for the never-relayed
human message `editMsg` issues no outbound edit, yet it does change
observable state — the conversation buffer of channel 1 gains the line
`"alice: hi"` (bot.py:493-495 run before the identity-map check). -/
theorem claim_C6_counterexample :
    (on_message_edit pairs0 "x" "y" st_empty editMsg).2 = none ∧
    (on_message_edit pairs0 "x" "y" st_empty editMsg).1.conversation_memory 1 =
      ["alice: hi"] ∧
    st_empty.conversation_memory 1 = [] := by
  exact ⟨by decide, by decide, rfl⟩

/-- C6, amended: an edit event for a non-bot message in a monitored
channel with no identity-map record issues no outbound edit and leaves
the identity map untouched, but it does append the edited line to that
channel's conversation buffer (all other channels' buffers unchanged). -/
theorem claim_C6_amended (pairs : List (Nat × Nat)) (tEN tJA : String)
    (st : BotState) (after : Msg)
    (hbot : after.authorBot = false)
    (hmon : isMonitored pairs after.channel = true)
    (hlook : st.forward_map (after.channel, after.id) = none) :
    (on_message_edit pairs tEN tJA st after).2 = none ∧
    (∀ k, (on_message_edit pairs tEN tJA st after).1.forward_map k =
      st.forward_map k) ∧
    (on_message_edit pairs tEN tJA st after).1.conversation_memory
        after.channel =
      bufferAppend (st.conversation_memory after.channel) (fmtLine after) ∧
    (∀ c, c ≠ after.channel →
      (on_message_edit pairs tEN tJA st after).1.conversation_memory c =
        st.conversation_memory c) := by
  have hmon' : (!isMonitored pairs after.channel) = false := by simp [hmon]
  simp only [on_message_edit, hbot, hmon', Bool.false_eq_true, if_false,
    hlook]
  refine ⟨trivial, fun _ => trivial, ?_, ?_⟩
  · simp [memAppend]
  · intro c hc
    simp [memAppend, hc]

/-- Witness for the amended C6: the concrete never-relayed edit keeps
the identity map empty and appends exactly one buffer line. -/
theorem claim_C6_amended_witness :
    (on_message_edit pairs0 "x" "y" st_empty editMsg).2 = none ∧
    (∀ k, (on_message_edit pairs0 "x" "y" st_empty editMsg).1.forward_map k =
      st_empty.forward_map k) ∧
    (on_message_edit pairs0 "x" "y" st_empty editMsg).1.conversation_memory
        editMsg.channel =
      bufferAppend (st_empty.conversation_memory editMsg.channel)
        (fmtLine editMsg) ∧
    (∀ c, c ≠ editMsg.channel →
      (on_message_edit pairs0 "x" "y" st_empty editMsg).1.conversation_memory c =
        st_empty.conversation_memory c) := by
  exact claim_C6_amended pairs0 "x" "y" st_empty editMsg (by decide)
    (by decide) (by decide)

end Bot

namespace Bot

/-- C7, counterexample: with both model queries timing out,
`query_lm_studio` returns `"Error: ..."` strings rather than failing,
the translations dict still has two keys, and the voting panel IS
produced (carrying the error strings) — the session is not dropped. -/
theorem claim_C7_counterexample :
    run_comparison_task false failAll =
      some ("qwen/qwen3-vl-4b", "google/gemma-3-4b",
        "Error: TimeoutError", "Error: TimeoutError") ∧
    query_lm_studio (failAll "qwen/qwen3-vl-4b") = "Error: TimeoutError" := by
  exact ⟨rfl, rfl⟩

theorem query_lm_studio_error_ne_empty (e : String) :
    ("Error: " ++ e) ≠ "" := by
  intro h
  have hl := congrArg String.length h
  rw [String.length_append] at hl
  have h1 : ("Error: " : String).length = 7 := rfl
  have h2 : ("" : String).length = 0 := rfl
  rw [h1, h2] at hl
  omega

/-- C7, amended: a model query that errors or times out yields a
non-empty `"Error: ..."` string that counts as an output, so with the
two distinct configured models the voting panel is always produced; the
silently-dropped path (`len(models) < 2`) is reachable only when the
translations dict ends up with fewer than two distinct model keys. -/
theorem claim_C7_amended :
    (∀ (swapAB : Bool) (results : String → LMOutcome),
      (run_comparison_task swapAB results).isSome = true) ∧
    (∀ (models : List String) (swapAB : Bool) (results : String → LMOutcome),
      (dictKeys models).length < 2 →
      run_comparison_general models swapAB results = none) ∧
    (∀ (status : Nat) (e : String),
      query_lm_studio (.httpError status) ≠ "" ∧
      query_lm_studio (.exn e) ≠ "") := by
  refine ⟨?_, ?_, ?_⟩
  · intro swapAB results
    cases swapAB <;> rfl
  · intro models swapAB results h
    simp [run_comparison_general, h]
  · intro status e
    exact ⟨query_lm_studio_error_ne_empty (toString status),
      query_lm_studio_error_ne_empty e⟩

/-- Witness for the amended C7: a configuration with a single model is
dropped without a panel. -/
theorem claim_C7_amended_witness :
    run_comparison_general ["onlymodel"] false failAll = none := by
  exact claim_C7_amended.2.1 ["onlymodel"] false failAll (by decide)

/-- C8, counterexample: in a channel whose newest message is from a bot
followed by ten human messages, the startup seeding collects only the
9 humans among the 10 most recently fetched messages — not the 10 most
recent human messages, as the claim requires. -/
theorem claim_C8_counterexample :
    (seed_history exHistory).length = 9 ∧
    (seed_history_spec exHistory).length = 10 ∧
    seed_history exHistory ≠ seed_history_spec exHistory := by
  exact ⟨by decide, by decide, by decide⟩

theorem filter_take_of_all {α : Type} (p : α → Bool) :
    ∀ (n : Nat) (l : List α), (∀ m ∈ l.take n, p m = true) →
      (l.filter p).take n = (l.take n).filter p := by
  intro n l
  induction l generalizing n with
  | nil => intro _; simp
  | cons x xs ih =>
      intro h
      cases n with
      | zero => simp
      | succ n =>
          have hx : p x = true := h x (by simp)
          have hrest : ∀ m ∈ xs.take n, p m = true := by
            intro m hm
            exact h m (List.mem_cons_of_mem x hm)
          simp only [List.filter_cons, hx, if_true, List.take_succ_cons]
          rw [ih n hrest]

/-- C8, amended: the startup seeding consists of the non-bot messages
among the 10 most recently fetched messages, formatted
`"{displayName}: {content}"` and ordered oldest first; it never exceeds
10 entries, and it agrees with the claim's "10 most recent human
messages" exactly in histories whose 10 most recent messages are all
human. -/
theorem claim_C8_amended (history : List Msg) :
    ((seed_history history).length ≤ 10) ∧
    ((∀ m ∈ history.take 10, m.authorBot = false) →
      seed_history history = seed_history_spec history) := by
  constructor
  · simp only [seed_history, List.length_reverse, List.length_map]
    exact le_trans (List.length_filter_le _ _) (List.length_take_le _ _)
  · intro h
    have hall : ∀ m ∈ history.take 10, (!m.authorBot) = true := by
      intro m hm
      simp [h m hm]
    unfold seed_history seed_history_spec
    rw [filter_take_of_all (fun m => !m.authorBot) 10 history
      (by intro m hm; exact hall m hm)]

/-- Witness for the amended C8: on an all-human history the seeding
agrees with the spec's description. -/
theorem claim_C8_amended_witness :
    seed_history exAllHuman = seed_history_spec exAllHuman := by
  exact (claim_C8_amended exAllHuman).2 (by decide)

end Bot

namespace Bot

/-- C10: `on_message` inserts a self-referential identity entry for
every message in a monitored channel — bot-authored ones included —
before any relay is attempted, so the identity map holds entries for
messages that were never relayed; and in a self-paired channel a human
reply to such a message passes the reply-reference channel-match check
and the outbound send is threaded onto the original message itself. -/
theorem claim_C10_self_entry :
    (∀ (pairs : List (Nat × Nat)) (tEN tJA : String) (st : BotState)
        (msg : Msg) (freshId : Nat),
      isMonitored pairs msg.channel = true → msg.authorBot = true →
      (on_message pairs tEN tJA st msg freshId).2 = none ∧
      (on_message pairs tEN tJA st msg freshId).1.forward_map
        (msg.channel, msg.id) = some msg) ∧
    (∀ (pairs : List (Nat × Nat)) (tEN tJA : String) (st : BotState)
        (msg parent : Msg) (freshId : Nat),
      pairLookup pairs msg.channel = some msg.channel →
      msg.authorBot = false →
      msg.reference = some parent.id →
      parent.id ≠ msg.id →
      parent.channel = msg.channel →
      st.forward_map (msg.channel, parent.id) = some parent →
      ∃ r, (on_message pairs tEN tJA st msg freshId).2 = some r ∧
        r.ref = some parent) := by
  constructor
  · intro pairs tEN tJA st msg freshId hmon hbot
    refine ⟨by simp [on_message, hmon, hbot], ?_⟩
    simp [on_message, hmon, hbot, mapInsert]
  · intro pairs tEN tJA st msg parent freshId hpl hbot href hneid hpc hlook
    have hmon : isMonitored pairs msg.channel = true := by
      simp [isMonitored, hpl]
    have hroute : routeOf pairs tEN tJA msg =
        some (msg.channel,
          if msg.content == "" then ""
          else if is_japanese msg.content then tEN else tJA) := by
      simp [routeOf, hpl]
    have hst1 : (mapInsert st.forward_map (msg.channel, msg.id) msg)
        (msg.channel, parent.id) = some parent := by
      simp only [mapInsert]
      rw [if_neg (by simp [hneid]), hlook]
    simp only [on_message, hmon, if_true, hbot, Bool.false_eq_true, if_false,
      forward_message, hroute]
    refine ⟨_, rfl, ?_⟩
    simp [href, hst1, hpc]

/-- Witness for C10: in self-paired channel 5, the human reply
`msgReply` to the bot message `m0` (which has only its self-entry) is
sent threaded onto `m0` itself. -/
theorem claim_C10_self_entry_witness :
    ∃ r, (on_message pairsSelf "EN" "JA" stSelf msgReply 300).2 = some r ∧
      r.ref = some m0 := by
  exact claim_C10_self_entry.2 pairsSelf "EN" "JA" stSelf msgReply m0 300
    (by decide) (by decide) (by decide) (by decide) (by decide) (by decide)

end Bot
